import Mathlib

/-!
Verification of the heightmap_rtx micromap construction pipeline.

This file shallowly embeds the sizing and layout functions, the bird-curve
address-table construction, the map-creation entry point and the per-map
GPU command recording of the heightmap_rtx library, and proves or refutes
the frozen claims about them.

Machine integers are modelled as natural numbers with explicit reduction
modulo 2 ^ 32 (uint32_t) or 2 ^ 64 (VkDeviceSize) at every operation where
the C++ source computes in that width.
-/

/-! ## Data model: enums and the map-creation request (include/heightmap_rtx.h) -/

/-- Embeds the VkIndexType values the library distinguishes
(tightIndexStrideBytes and the UINT32 check in hrtxCmdCreateMap). -/
inductive VkIndexType where
  | uint8Ext
  | uint16
  | uint32
  | other
deriving DecidableEq, Repr

/-- Embeds the VkFormat values the library distinguishes. -/
inductive VkFormat where
  | r32g32Sfloat
  | r16g16b16a16Sfloat
  | other
deriving DecidableEq, Repr

/-- Embeds the VkResult codes returned by the library entry points. -/
inductive VkResult where
  | success
  | incomplete
  | errorInitializationFailed
  | errorFormatNotSupported
deriving DecidableEq, Repr

/-- Embeds HrtxMapCreate (include/heightmap_rtx.h), flattened to the fields
the library reads: the index type of create.triangles, the primitive count,
the texture-coordinate format and stride, and the subdivision level. -/
structure HrtxMapCreate where
  indexType : VkIndexType
  primitiveCount : Nat
  textureCoordsFormat : VkFormat
  textureCoordsStride : Nat
  subdivisionLevel : Nat
deriving DecidableEq, Repr

/-! ## Sizing and layout functions (src/hrtx_map.hpp) -/

/-- Embeds microVertsPerTriangle (src/hrtx_map.hpp): uint32_t arithmetic,
microVertsPerEdge = (1 << level) + 1, result = edge * (edge + 1) / 2. -/
def microVertsPerTriangle (subdivisionLevel : Nat) : Nat :=
  let microVertsPerEdge := ((1 <<< subdivisionLevel) % 2 ^ 32 + 1) % 2 ^ 32
  ((microVertsPerEdge * ((microVertsPerEdge + 1) % 2 ^ 32)) % 2 ^ 32) / 2

/-- Embeds baryLosslessBlocks (src/hrtx_map.hpp): uint32_t arithmetic,
blocksPerTriangle = 1 << ((max(3, level) - 3) * 2), result =
primitiveCount * blocksPerTriangle. -/
def baryLosslessBlocks (create : HrtxMapCreate) : Nat :=
  let micromap6464BlocksPerTriangle :=
    (1 <<< ((max 3 create.subdivisionLevel - 3) * 2)) % 2 ^ 32
  (create.primitiveCount * micromap6464BlocksPerTriangle) % 2 ^ 32

/-- Embeds align_up (src/hrtx_map.hpp) instantiated at T = VkDeviceSize
(uint64_t): (x + (alignPOT - 1)) & ~(alignPOT - 1), with uint64 wraparound
on the subtraction and the addition, and bitwise complement taken in 64
bits. -/
def align_up (x alignPOT : Nat) : Nat :=
  let alignPOTm1 := (alignPOT + (2 ^ 64 - 1)) % 2 ^ 64
  ((x + alignPOTm1) % 2 ^ 64) &&& ((2 ^ 64 - 1) - alignPOTm1)

/-- Embeds the scratch-size computation in the BuiltMicromap constructor
(src/hrtx_map.hpp): align_up(max(buildScratchSize, 4), scratchAlignment). -/
def builtMicromapScratchSize (buildScratchSize scratchAlignment : Nat) : Nat :=
  align_up (max buildScratchSize 4) scratchAlignment

/-! ## Helper lemmas for the sizing functions -/

/-- 4 to a power is 2 to twice the power. -/
lemma four_pow_eq_two_pow (m : Nat) : 4 ^ m = 2 ^ (m * 2) := by
  have h4 : (4 : Nat) = 2 ^ 2 := rfl
  rw [h4, ← pow_mul, Nat.mul_comm]

/-- Shared helper: baryLosslessBlocks agrees with the mathematical formula
whenever the product fits in 32 bits. -/
lemma baryLosslessBlocks_of_lt (create : HrtxMapCreate)
    (h : create.primitiveCount * 4 ^ (max 3 create.subdivisionLevel - 3) < 2 ^ 32) :
    baryLosslessBlocks create =
      create.primitiveCount * 4 ^ (max 3 create.subdivisionLevel - 3) := by
  unfold baryLosslessBlocks
  rcases Nat.eq_zero_or_pos create.primitiveCount with hpc | hpc
  · simp [hpc]
  · set m := max 3 create.subdivisionLevel - 3 with hm
    have hfour : 4 ^ m ≤ create.primitiveCount * 4 ^ m :=
      Nat.le_mul_of_pos_left _ hpc
    have hfour32 : 4 ^ m < 2 ^ 32 := lt_of_le_of_lt hfour h
    have hshift : (1 : Nat) <<< (m * 2) = 4 ^ m := by
      rw [Nat.shiftLeft_eq, one_mul, four_pow_eq_two_pow]
    rw [hshift, Nat.mod_eq_of_lt hfour32, Nat.mod_eq_of_lt h]

/-! ## Claims C1 and C2: baryLosslessBlocks -/

/-- Claim C1, counterexample: the claim states that for EVERY primitiveCount
and subdivision level the result is primitiveCount * 4 ^ (max(3, level) - 3),
but at primitiveCount = 2 ^ 31 and level = 4 the uint32 product wraps to 0
while the claimed value is 2 ^ 33. -/
theorem baryLosslessBlocks_uint32_wrap_counterexample :
    baryLosslessBlocks ⟨VkIndexType.uint32, 2 ^ 31, VkFormat.r32g32Sfloat, 8, 4⟩ ≠
      (2 ^ 31) * 4 ^ (max 3 4 - 3) := by
  decide

/-- Claim C1 (amended): baryLosslessBlocks returns
primitiveCount * 4 ^ (max(3, level) - 3) whenever that product is below
2 ^ 32, so in particular it returns primitiveCount whenever level ≤ 3 and
primitiveCount < 2 ^ 32 (the uint32 input range). -/
theorem baryLosslessBlocks_formula_of_no_overflow (create : HrtxMapCreate)
    (h : create.primitiveCount * 4 ^ (max 3 create.subdivisionLevel - 3) < 2 ^ 32) :
    baryLosslessBlocks create =
      create.primitiveCount * 4 ^ (max 3 create.subdivisionLevel - 3) :=
  baryLosslessBlocks_of_lt create h

/-- Witness for claim C1 at primitiveCount = 7, level = 5. -/
theorem baryLosslessBlocks_formula_witness :
    baryLosslessBlocks ⟨VkIndexType.uint32, 7, VkFormat.r32g32Sfloat, 8, 5⟩ =
      7 * 4 ^ (max 3 5 - 3) :=
  baryLosslessBlocks_formula_of_no_overflow
    ⟨VkIndexType.uint32, 7, VkFormat.r32g32Sfloat, 8, 5⟩ (by norm_num)

/-- Claim C2, counterexample: the worked example of the spec claims that
primitiveCount = 10 at level 5 gives 40 blocks, but the code computes
10 * 4 ^ (5 - 3) = 160. -/
theorem baryLosslessBlocks_example_counterexample :
    baryLosslessBlocks ⟨VkIndexType.uint32, 10, VkFormat.r32g32Sfloat, 8, 5⟩ = 160 ∧
      (160 : Nat) ≠ 40 := by
  constructor
  · decide
  · decide

/-- Claim C2 (amended): baryLosslessBlocks equals primitiveCount for
level ≤ 3 (with primitiveCount in the uint32 range), equals
primitiveCount * 4 ^ (level - 3) for level > 3 whenever that product is
below 2 ^ 32, and the worked example primitiveCount = 10, level = 5 yields
160, not 40. -/
theorem baryLosslessBlocks_piecewise :
    (∀ create : HrtxMapCreate, create.subdivisionLevel ≤ 3 →
      create.primitiveCount < 2 ^ 32 →
      baryLosslessBlocks create = create.primitiveCount) ∧
    (∀ create : HrtxMapCreate, 3 < create.subdivisionLevel →
      create.primitiveCount * 4 ^ (create.subdivisionLevel - 3) < 2 ^ 32 →
      baryLosslessBlocks create =
        create.primitiveCount * 4 ^ (create.subdivisionLevel - 3)) ∧
    baryLosslessBlocks ⟨VkIndexType.uint32, 10, VkFormat.r32g32Sfloat, 8, 5⟩ = 160 := by
  refine ⟨fun create hlev hpc => ?_, fun create hlev hno => ?_, by decide⟩
  · have hmax : max 3 create.subdivisionLevel = 3 := max_eq_left hlev
    have := baryLosslessBlocks_of_lt create (by rw [hmax]; simpa using hpc)
    rwa [hmax, Nat.sub_self, pow_zero, Nat.mul_one] at this
  · have hmax : max 3 create.subdivisionLevel = create.subdivisionLevel :=
      max_eq_right (le_of_lt hlev)
    have := baryLosslessBlocks_of_lt create (by rw [hmax]; exact hno)
    rwa [hmax] at this

/-- Witness for claim C2 at primitiveCount = 9, level = 2 and
primitiveCount = 3, level = 4. -/
theorem baryLosslessBlocks_piecewise_witness :
    baryLosslessBlocks ⟨VkIndexType.uint32, 9, VkFormat.r32g32Sfloat, 8, 2⟩ = 9 ∧
    baryLosslessBlocks ⟨VkIndexType.uint32, 3, VkFormat.r32g32Sfloat, 8, 4⟩ = 3 * 4 ^ (4 - 3) :=
  ⟨baryLosslessBlocks_piecewise.1 ⟨VkIndexType.uint32, 9, VkFormat.r32g32Sfloat, 8, 2⟩
      (by norm_num) (by norm_num),
   baryLosslessBlocks_piecewise.2.1 ⟨VkIndexType.uint32, 3, VkFormat.r32g32Sfloat, 8, 4⟩
      (by norm_num) (by norm_num)⟩

/-! ## Claim C5: microVertsPerTriangle -/

/-- Claim C5: for every subdivision level in [0, 5], microVertsPerTriangle
equals T * (T + 1) / 2 with T = 2 ^ level + 1; in particular level 0 gives 3
and level 3 gives 45. -/
theorem microVertsPerTriangle_closed_form :
    (∀ level : Nat, level ≤ 5 →
      microVertsPerTriangle level = (2 ^ level + 1) * (2 ^ level + 1 + 1) / 2) ∧
    microVertsPerTriangle 0 = 3 ∧ microVertsPerTriangle 3 = 45 := by
  refine ⟨fun level hlevel => ?_, by decide, by decide⟩
  interval_cases level <;> decide

/-- Witness for claim C5 at level 5. -/
theorem microVertsPerTriangle_closed_form_witness :
    microVertsPerTriangle 5 = (2 ^ 5 + 1) * (2 ^ 5 + 1 + 1) / 2 :=
  microVertsPerTriangle_closed_form.1 5 (by norm_num)

/-! ## Claim C6: scratch-buffer alignment -/

/-- The mask left over after clearing the k low bits of the 64-bit all-ones
word, written as a shifted block of ones. -/
lemma two_pow_sub_two_pow (w k : Nat) (hk : k ≤ w) :
    2 ^ w - 2 ^ k = (2 ^ (w - k) - 1) * 2 ^ k := by
  rw [Nat.sub_mul, one_mul, ← pow_add, Nat.sub_add_cancel hk]

/-- Bitwise AND with the complement of the low-bit mask clears the k low
bits: for v < 2 ^ w, v &&& (2 ^ w - 2 ^ k) = v / 2 ^ k * 2 ^ k. -/
lemma land_high_mask (v k w : Nat) (hk : k ≤ w) (hv : v < 2 ^ w) :
    v &&& (2 ^ w - 2 ^ k) = v / 2 ^ k * 2 ^ k := by
  have hmask : 2 ^ w - 2 ^ k = (2 ^ (w - k) - 1) <<< k := by
    rw [Nat.shiftLeft_eq]; exact two_pow_sub_two_pow w k hk
  have hdiv : v / 2 ^ k * 2 ^ k = (v >>> k) <<< k := by
    rw [Nat.shiftLeft_eq, Nat.shiftRight_eq_div_pow]
  rw [hmask, hdiv]
  apply Nat.eq_of_testBit_eq
  intro i
  rw [Nat.testBit_land, Nat.testBit_shiftLeft, Nat.testBit_shiftLeft,
    Nat.testBit_two_pow_sub_one, Nat.testBit_shiftRight]
  by_cases hki : k ≤ i
  · have hadd : k + (i - k) = i := Nat.add_sub_cancel' hki
    by_cases hiw : i < w
    · have : i - k < w - k := by omega
      simp [hki, hadd, this, ge_iff_le]
    · have hbit : v.testBit i = false :=
        Nat.testBit_eq_false_of_lt
          (lt_of_lt_of_le hv (Nat.pow_le_pow_right (by norm_num) (by omega)))
      have : ¬ i - k < w - k := by omega
      simp [hki, hadd, this, hbit, ge_iff_le]
  · simp [hki, ge_iff_le]

/-- Claim C6, counterexample: the claim quantifies over EVERY driver-reported
scratch size S; at S = 2 ^ 64 - 1 with alignment A = 2 the uint64 sum
max(S, 4) + (A - 1) wraps, the computed scratch size is 0, and 0 is not
greater than or equal to max(S, 4), so it is not the smallest such multiple. -/
theorem builtMicromapScratchSize_wrap_counterexample :
    builtMicromapScratchSize (2 ^ 64 - 1) 2 = 0 ∧
      ¬ (max (2 ^ 64 - 1) 4 ≤ builtMicromapScratchSize (2 ^ 64 - 1) 2) := by
  have h0 : builtMicromapScratchSize (2 ^ 64 - 1) 2 = 0 := by decide
  refine ⟨h0, ?_⟩
  rw [h0]
  decide

/-- Claim C6 (amended): for a power-of-two alignment A = 2 ^ k (k < 64, the
uint64 range) and any required size S such that max(S, 4) + (A - 1) does not
overflow uint64, the computed scratch size is a multiple of A, is at least
max(S, 4), and is the smallest such multiple. -/
theorem builtMicromapScratchSize_least_multiple (S A k : Nat) (hA : A = 2 ^ k)
    (hk : k < 64) (hno : max S 4 + (A - 1) < 2 ^ 64) :
    A ∣ builtMicromapScratchSize S A ∧
    max S 4 ≤ builtMicromapScratchSize S A ∧
    ∀ m : Nat, A ∣ m → max S 4 ≤ m → builtMicromapScratchSize S A ≤ m := by
  subst hA
  set x := max S 4 with hx
  have hkpos : (0 : Nat) < 2 ^ k := Nat.pos_pow_of_pos k (by norm_num)
  have hk1 : (1 : Nat) ≤ 2 ^ k := hkpos
  have hklt : (2 : Nat) ^ k < 2 ^ 64 := Nat.pow_lt_pow_right (by norm_num) hk
  set v := x + (2 ^ k - 1) with hv
  have hvlt : v < 2 ^ 64 := hno
  have hm1 : (2 ^ k + (2 ^ 64 - 1)) % 2 ^ 64 = 2 ^ k - 1 := by
    have hsum : 2 ^ k + (2 ^ 64 - 1) = 2 ^ 64 + (2 ^ k - 1) := by omega
    rw [hsum, Nat.add_mod_left, Nat.mod_eq_of_lt (by omega)]
  have hcompl : (2 ^ 64 - 1) - (2 ^ k - 1) = 2 ^ 64 - 2 ^ k := by omega
  have heval : builtMicromapScratchSize S (2 ^ k) = v / 2 ^ k * 2 ^ k := by
    unfold builtMicromapScratchSize align_up
    rw [← hx]
    simp only [hm1, hcompl, Nat.mod_eq_of_lt hvlt]
    exact land_high_mask v k 64 (le_of_lt hk) hvlt
  rw [heval]
  have hdm : 2 ^ k * (v / 2 ^ k) + v % 2 ^ k = v := Nat.div_add_mod v (2 ^ k)
  have hmod : v % 2 ^ k < 2 ^ k := Nat.mod_lt _ hkpos
  have hcomm : v / 2 ^ k * 2 ^ k = 2 ^ k * (v / 2 ^ k) := Nat.mul_comm _ _
  refine ⟨dvd_mul_left _ _, by omega, fun m hdvd hxm => ?_⟩
  obtain ⟨q, rfl⟩ := hdvd
  have hvq : v < (q + 1) * 2 ^ k := by
    have : 2 ^ k * q + 2 ^ k = (q + 1) * 2 ^ k := by ring
    omega
  have hdivq : v / 2 ^ k < q + 1 := (Nat.div_lt_iff_lt_mul hkpos).mpr hvq
  calc v / 2 ^ k * 2 ^ k ≤ q * 2 ^ k := Nat.mul_le_mul_right _ (by omega)
    _ = 2 ^ k * q := Nat.mul_comm _ _

/-- Witness for claim C6 at S = 21, A = 8: the computed size is 24. -/
theorem builtMicromapScratchSize_least_multiple_witness :
    8 ∣ builtMicromapScratchSize 21 8 ∧
    max 21 4 ≤ builtMicromapScratchSize 21 8 ∧
    ∀ m : Nat, 8 ∣ m → max 21 4 ≤ m → builtMicromapScratchSize 21 8 ≤ m :=
  builtMicromapScratchSize_least_multiple 21 8 3 (by norm_num) (by norm_num)
    (by norm_num)

/-! ## Claim C3: bird-curve address table (src/hrtx_pipeline.hpp) -/

/-- Embeds the BaryUV16 entry type of the bird-curve table: a pair of
16-bit barycentric UV coordinates. -/
structure BaryUV16 where
  u : Nat
  v : Nat
deriving DecidableEq, Repr

/-- Modelled from the spec: the per-level entry offsets of the static base
table birdVertexToBaryTable in bird_curve_table.h, which is not under src/.
Offset 4 (entries through level 3) is 3 + 6 + 15 + 45 = 69, forced by the
asserted table-size constant 969 + 1 together with the declared array size
offsets[4] + (4 + 16) * 45 + 1; offset 5 adds the 153 level-4 vertices
(T(T + 1)/2 with T = 2 ^ level + 1). -/
def birdVertexToBaryTableOffsets : List Nat := [0, 3, 9, 24, 69, 222]

/-- Modelled from the spec: the static base table birdVertexToBaryTable of
bird_curve_table.h (not under src/) holds one BaryUV16 entry per bird-curve
vertex through subdivision level 5, 69 + 153 + 561 = 783 entries in total.
The entry values do not affect the length invariant and are left zero. -/
def birdVertexToBaryTable : List BaryUV16 := List.replicate 783 ⟨0, 0⟩

/-- Modelled from the spec: the static table birdIndexBlockLocalToGlobal of
bird_curve_table.h (not under src/), a 20 x 45 array giving, for each of the
4 level-4 and 16 level-5 compression blocks, the global bird-curve vertex
index of each of the 45 block-local vertex slots. The index values do not
affect the length invariant and are left zero. -/
def birdIndexBlockLocalToGlobal : List (List Nat) :=
  List.replicate 20 (List.replicate 45 0)

/-- Embeds the declared size of the BlockToBirdUVTable array
(src/hrtx_pipeline.hpp): birdVertexToBaryTableOffsets[4] + (4 + 16) * 45 + 1
entries. -/
def blockToBirdUVTableSize : Nat :=
  birdVertexToBaryTableOffsets.getD 4 0 + (4 + 16) * 45 + 1

/-- Embeds the BlockToBirdUVTable constructor (src/hrtx_pipeline.hpp): copy
the base table through offsets[4]; transform the flattened rows 0..3 of
birdIndexBlockLocalToGlobal through the level-4 slice of the base table;
transform the flattened rows 4..19 through the level-5 slice; append one
zero padding entry so the byte size is a multiple of 4. -/
def blockToBirdUVTable : List BaryUV16 :=
  let flat := birdIndexBlockLocalToGlobal.flatten
  birdVertexToBaryTable.take (birdVertexToBaryTableOffsets.getD 4 0)
  ++ (flat.take (4 * 45)).map (fun globalBirdIndex =>
        birdVertexToBaryTable.getD
          (birdVertexToBaryTableOffsets.getD 4 0 + globalBirdIndex) ⟨0, 0⟩)
  ++ ((flat.drop (4 * 45)).take (16 * 45)).map (fun globalBirdIndex =>
        birdVertexToBaryTable.getD
          (birdVertexToBaryTableOffsets.getD 5 0 + globalBirdIndex) ⟨0, 0⟩)
  ++ [⟨0, 0⟩]

set_option maxRecDepth 8192 in
/-- Claim C3: the constructed table fills the declared fixed-length array
exactly, and the total length is the base-entry count through level 3 plus
45 entries for each of the 4 level-4 and 16 level-5 blocks plus 1 padding
entry, 969 + 1 = 970 entries in total. -/
theorem blockToBirdUVTable_length_eq :
    blockToBirdUVTable.length = blockToBirdUVTableSize ∧
    blockToBirdUVTableSize =
      birdVertexToBaryTableOffsets.getD 4 0 + 45 * (4 + 16) + 1 ∧
    blockToBirdUVTableSize = 969 + 1 ∧ blockToBirdUVTableSize = 970 := by
  refine ⟨by decide, by decide, by decide, by decide⟩

/-! ## Claim C4: GPU command recording during map construction
(src/hrtx_map.hpp, src/vulkan_objects.hpp, src/hrtx_pipeline.hpp) -/

/-- The buffers owned by a map or pipeline, identified by role. -/
inductive BufId where
  | birdTable
  | biasAndScale
  | baryValues
  | baryTriangles
  | micromapData
  | micromapScratch
deriving DecidableEq, Repr

/-- Pipeline stage and access mask constants from vulkan_core.h, as the
numeric flag values the source passes to the barrier helpers. -/
def VK_PIPELINE_STAGE_TRANSFER_BIT : Nat := 0x00001000

def VK_ACCESS_TRANSFER_WRITE_BIT : Nat := 0x00001000

def VK_PIPELINE_STAGE_COMPUTE_SHADER_BIT : Nat := 0x00000800

def VK_ACCESS_SHADER_READ_BIT : Nat := 0x00000020

def VK_ACCESS_SHADER_WRITE_BIT : Nat := 0x00000040

def VK_PIPELINE_STAGE_2_COMPUTE_SHADER_BIT : Nat := 0x00000800

def VK_ACCESS_2_SHADER_WRITE_BIT : Nat := 0x00000040

def VK_PIPELINE_STAGE_2_MICROMAP_BUILD_BIT_EXT : Nat := 0x40000000

def VK_ACCESS_2_MICROMAP_READ_BIT_EXT : Nat := 0x100000000000

def VK_ACCESS_2_MICROMAP_WRITE_BIT_EXT : Nat := 0x200000000000

def VK_PIPELINE_STAGE_2_ACCELERATION_STRUCTURE_BUILD_BIT_KHR : Nat := 0x02000000

def VK_ACCESS_2_ACCELERATION_STRUCTURE_READ_BIT_KHR : Nat := 0x00200000

def VK_PIPELINE_STAGE_2_TRANSFER_BIT : Nat := 0x00001000

def VK_ACCESS_2_TRANSFER_WRITE_BIT : Nat := 0x00010000

/-- One GPU command recorded into the caller-supplied command buffer.
Each constructor embeds one vkCmd... call made by the source. -/
inductive Cmd where
  | fillBuffer (buffer : BufId) (value : Nat)
  | pipelineBarrier (srcStageMask srcAccessMask dstStageMask dstAccessMask : Nat)
  | pipelineBarrier2 (srcStageMask srcAccessMask dstStageMask dstAccessMask : Nat)
  | bindDescriptorSets
  | bindPipeline
  | pushConstants
  | dispatch (groupCountX : Nat)
  | buildMicromapsEXT
  | updateBuffer (buffer : BufId)
deriving DecidableEq, Repr

/-- Embeds Buffer::clear (src/vulkan_objects.hpp): vkCmdFillBuffer with the
default fill value 0. -/
def bufferClear (buffer : BufId) : List Cmd := [Cmd.fillBuffer buffer 0]

/-- Embeds Buffer::update (src/vulkan_objects.hpp): vkCmdUpdateBuffer. -/
def bufferUpdate (buffer : BufId) : List Cmd := [Cmd.updateBuffer buffer]

/-- Embeds memoryBarrier (src/vulkan_objects.hpp): one vkCmdPipelineBarrier
with a single VkMemoryBarrier. -/
def memoryBarrier (srcStageMask srcAccessMask dstStageMask dstAccessMask : Nat) :
    List Cmd :=
  [Cmd.pipelineBarrier srcStageMask srcAccessMask dstStageMask dstAccessMask]

/-- Embeds memoryBarrier2 (src/vulkan_objects.hpp): one vkCmdPipelineBarrier2
with a single VkMemoryBarrier2. -/
def memoryBarrier2 (srcStageMask srcAccessMask dstStageMask dstAccessMask : Nat) :
    List Cmd :=
  [Cmd.pipelineBarrier2 srcStageMask srcAccessMask dstStageMask dstAccessMask]

/-- Embeds HrtxPipeline_T::bindAndDispatch (src/hrtx_pipeline.hpp):
vkCmdBindDescriptorSets, vkCmdBindPipeline, vkCmdPushConstants,
vkCmdDispatch(groupCountX, 1, 1). -/
def bindAndDispatch (groupCountX : Nat) : List Cmd :=
  [Cmd.bindDescriptorSets, Cmd.bindPipeline, Cmd.pushConstants,
   Cmd.dispatch groupCountX]

/-- Modelled from the spec: COMPRESS_WORKGROUP_SIZE, the fixed workgroup
size of the compiled compute program, defined in shader_definitions.h which
is not under src/. Its value does not affect the recorded command sequence,
only the dispatched group count. -/
def COMPRESS_WORKGROUP_SIZE : Nat := 64

/-- Embeds the thread and group sizing in the BaryDataVk constructor
(src/hrtx_map.hpp): 45 threads per block beyond level 3, one thread per
micro-vertex otherwise, divided into workgroups rounding up. -/
def baryDataGroupCount (create : HrtxMapCreate) : Nat :=
  let microTrianglesPerBlock := 45
  let threadCount :=
    if 3 < create.subdivisionLevel then
      microTrianglesPerBlock * baryLosslessBlocks create
    else
      create.primitiveCount * microVertsPerTriangle create.subdivisionLevel
  (threadCount + COMPRESS_WORKGROUP_SIZE - 1) / COMPRESS_WORKGROUP_SIZE

/-- Embeds the command recording of the BaryDataVk constructor
(src/hrtx_map.hpp): clear both output buffers, barrier from transfer write
to compute-shader read/write, bind and dispatch the compression program,
barrier from compute-shader write to micromap-build read. -/
def baryDataVkCmds (create : HrtxMapCreate) : List Cmd :=
  bufferClear BufId.baryValues ++ bufferClear BufId.baryTriangles
  ++ memoryBarrier VK_PIPELINE_STAGE_TRANSFER_BIT VK_ACCESS_TRANSFER_WRITE_BIT
       VK_PIPELINE_STAGE_COMPUTE_SHADER_BIT
       (VK_ACCESS_SHADER_READ_BIT ||| VK_ACCESS_SHADER_WRITE_BIT)
  ++ bindAndDispatch (baryDataGroupCount create)
  ++ memoryBarrier2 VK_PIPELINE_STAGE_2_COMPUTE_SHADER_BIT
       VK_ACCESS_2_SHADER_WRITE_BIT VK_PIPELINE_STAGE_2_MICROMAP_BUILD_BIT_EXT
       VK_ACCESS_2_MICROMAP_READ_BIT_EXT

/-- Embeds the command recording of the BuiltMicromap constructor
(src/hrtx_map.hpp): vkCmdBuildMicromapsEXT, then a barrier from
micromap-build write to acceleration-structure-build read. -/
def builtMicromapCmds : List Cmd :=
  [Cmd.buildMicromapsEXT]
  ++ memoryBarrier2 VK_PIPELINE_STAGE_2_MICROMAP_BUILD_BIT_EXT
       VK_ACCESS_2_MICROMAP_WRITE_BIT_EXT
       VK_PIPELINE_STAGE_2_ACCELERATION_STRUCTURE_BUILD_BIT_KHR
       VK_ACCESS_2_ACCELERATION_STRUCTURE_READ_BIT_KHR

/-- Embeds the command recording of the HrtxMap_T constructor
(src/hrtx_map.hpp): member initialization records the BaryDataVk and
BuiltMicromap commands, then the body updates the bias/scale buffer and
records a barrier from transfer write to acceleration-structure-build
read. -/
def hrtxMapCmds (create : HrtxMapCreate) : List Cmd :=
  baryDataVkCmds create ++ builtMicromapCmds
  ++ bufferUpdate BufId.biasAndScale
  ++ memoryBarrier2 VK_PIPELINE_STAGE_2_TRANSFER_BIT
       VK_ACCESS_2_TRANSFER_WRITE_BIT
       VK_PIPELINE_STAGE_2_ACCELERATION_STRUCTURE_BUILD_BIT_KHR
       VK_ACCESS_2_ACCELERATION_STRUCTURE_READ_BIT_KHR

/-- True exactly on compute dispatch commands. -/
def isDispatchCmd : Cmd → Bool
  | Cmd.dispatch _ => true
  | _ => false

/-- Claim C4: per map the recorded sequence clears the value and descriptor
buffers to zero, then a transfer-to-compute barrier, then exactly one
dispatch, then a compute-to-micromap-build barrier, then the micromap build,
then a micromap-build-to-acceleration-structure barrier, each dependent
stage after the barrier that precedes it; the full trace also interposes
only descriptor/pipeline/push-constant binds before the dispatch and ends
with the bias/scale upload and its own barrier. -/
theorem hrtxMapCmds_order (create : HrtxMapCreate) :
    hrtxMapCmds create =
      [Cmd.fillBuffer BufId.baryValues 0, Cmd.fillBuffer BufId.baryTriangles 0,
       Cmd.pipelineBarrier VK_PIPELINE_STAGE_TRANSFER_BIT
         VK_ACCESS_TRANSFER_WRITE_BIT VK_PIPELINE_STAGE_COMPUTE_SHADER_BIT
         (VK_ACCESS_SHADER_READ_BIT ||| VK_ACCESS_SHADER_WRITE_BIT),
       Cmd.bindDescriptorSets, Cmd.bindPipeline, Cmd.pushConstants,
       Cmd.dispatch (baryDataGroupCount create),
       Cmd.pipelineBarrier2 VK_PIPELINE_STAGE_2_COMPUTE_SHADER_BIT
         VK_ACCESS_2_SHADER_WRITE_BIT VK_PIPELINE_STAGE_2_MICROMAP_BUILD_BIT_EXT
         VK_ACCESS_2_MICROMAP_READ_BIT_EXT,
       Cmd.buildMicromapsEXT,
       Cmd.pipelineBarrier2 VK_PIPELINE_STAGE_2_MICROMAP_BUILD_BIT_EXT
         VK_ACCESS_2_MICROMAP_WRITE_BIT_EXT
         VK_PIPELINE_STAGE_2_ACCELERATION_STRUCTURE_BUILD_BIT_KHR
         VK_ACCESS_2_ACCELERATION_STRUCTURE_READ_BIT_KHR,
       Cmd.updateBuffer BufId.biasAndScale,
       Cmd.pipelineBarrier2 VK_PIPELINE_STAGE_2_TRANSFER_BIT
         VK_ACCESS_2_TRANSFER_WRITE_BIT
         VK_PIPELINE_STAGE_2_ACCELERATION_STRUCTURE_BUILD_BIT_KHR
         VK_ACCESS_2_ACCELERATION_STRUCTURE_READ_BIT_KHR] ∧
    (hrtxMapCmds create).countP isDispatchCmd = 1 ∧
    List.Sublist
      [Cmd.fillBuffer BufId.baryValues 0, Cmd.fillBuffer BufId.baryTriangles 0,
       Cmd.pipelineBarrier VK_PIPELINE_STAGE_TRANSFER_BIT
         VK_ACCESS_TRANSFER_WRITE_BIT VK_PIPELINE_STAGE_COMPUTE_SHADER_BIT
         (VK_ACCESS_SHADER_READ_BIT ||| VK_ACCESS_SHADER_WRITE_BIT),
       Cmd.dispatch (baryDataGroupCount create),
       Cmd.pipelineBarrier2 VK_PIPELINE_STAGE_2_COMPUTE_SHADER_BIT
         VK_ACCESS_2_SHADER_WRITE_BIT VK_PIPELINE_STAGE_2_MICROMAP_BUILD_BIT_EXT
         VK_ACCESS_2_MICROMAP_READ_BIT_EXT,
       Cmd.buildMicromapsEXT,
       Cmd.pipelineBarrier2 VK_PIPELINE_STAGE_2_MICROMAP_BUILD_BIT_EXT
         VK_ACCESS_2_MICROMAP_WRITE_BIT_EXT
         VK_PIPELINE_STAGE_2_ACCELERATION_STRUCTURE_BUILD_BIT_KHR
         VK_ACCESS_2_ACCELERATION_STRUCTURE_READ_BIT_KHR]
      (hrtxMapCmds create) := by
  refine ⟨rfl, rfl, ?_⟩
  exact
    (List.Sublist.slnil.cons _ |>.cons _ |>.cons₂ _ |>.cons₂ _ |>.cons₂ _
      |>.cons₂ _ |>.cons _ |>.cons _ |>.cons _ |>.cons₂ _ |>.cons₂ _ |>.cons₂ _)

/-! ## Claims C7, C8, C9: hrtxCmdCreateMap (src/heightmap_rtx.cpp) -/

/-- The state of a constructed HrtxMap_T object (src/hrtx_map.hpp), reduced
to the creation parameters it stores. -/
structure HrtxMap_T where
  primitiveCount : Nat
  subdivisionLevel : Nat
deriving DecidableEq, Repr

/-- The observable outcome of hrtxCmdCreateMap: the returned VkResult, the
map written to the output handle (none when the early returns leave it
unwritten), the GPU commands recorded into the command buffer, and the
buffers allocated through the allocator callbacks. -/
structure CmdCreateMapResult where
  result : VkResult
  hrtxMap : Option HrtxMap_T
  cmds : List Cmd
  allocations : List BufId
deriving DecidableEq, Repr

/-- Embeds hrtxCmdCreateMap (src/heightmap_rtx.cpp). The checks run in
source order: null pipeline handle, then the supported-format check
(32-bit indices, R32G32_SFLOAT texcoords, stride a multiple of 8 bytes),
then the zero-primitive check; only then is the HrtxMap_T constructed,
allocating the bias/scale, bary-value, bary-triangle, micromap storage and
micromap scratch buffers and recording the map-construction commands. -/
def hrtxCmdCreateMap (hrtxPipelineNonNull : Bool) (create : HrtxMapCreate) :
    CmdCreateMapResult :=
  if hrtxPipelineNonNull = false then
    ⟨VkResult.errorInitializationFailed, none, [], []⟩
  else if create.indexType ≠ VkIndexType.uint32 ∨
      create.textureCoordsFormat ≠ VkFormat.r32g32Sfloat ∨
      create.textureCoordsStride % 8 ≠ 0 then
    ⟨VkResult.errorFormatNotSupported, none, [], []⟩
  else if create.primitiveCount = 0 then
    ⟨VkResult.incomplete, none, [], []⟩
  else
    ⟨VkResult.success, some ⟨create.primitiveCount, create.subdivisionLevel⟩,
     hrtxMapCmds create,
     [BufId.biasAndScale, BufId.baryValues, BufId.baryTriangles,
      BufId.micromapData, BufId.micromapScratch]⟩

/-- Claim C7: with a non-null pipeline, any request with a non-32-bit index
type, a non-R32G32_SFLOAT texcoord format or a texcoord stride that is not
a multiple of 8 bytes returns VK_ERROR_FORMAT_NOT_SUPPORTED, with no buffer
allocated, no command recorded and no map object created. -/
theorem hrtxCmdCreateMap_format_rejection (create : HrtxMapCreate)
    (h : create.indexType ≠ VkIndexType.uint32 ∨
      create.textureCoordsFormat ≠ VkFormat.r32g32Sfloat ∨
      create.textureCoordsStride % 8 ≠ 0) :
    (hrtxCmdCreateMap true create).result = VkResult.errorFormatNotSupported ∧
    (hrtxCmdCreateMap true create).hrtxMap = none ∧
    (hrtxCmdCreateMap true create).cmds = [] ∧
    (hrtxCmdCreateMap true create).allocations = [] := by
  unfold hrtxCmdCreateMap
  rw [if_neg (by simp), if_pos h]
  exact ⟨rfl, rfl, rfl, rfl⟩

/-- Witness for claim C7: a request with 16-bit indices is rejected. -/
theorem hrtxCmdCreateMap_format_rejection_witness :
    (hrtxCmdCreateMap true
      ⟨VkIndexType.uint16, 12, VkFormat.r32g32Sfloat, 8, 3⟩).result =
        VkResult.errorFormatNotSupported ∧
    (hrtxCmdCreateMap true
      ⟨VkIndexType.uint16, 12, VkFormat.r32g32Sfloat, 8, 3⟩).hrtxMap = none ∧
    (hrtxCmdCreateMap true
      ⟨VkIndexType.uint16, 12, VkFormat.r32g32Sfloat, 8, 3⟩).cmds = [] ∧
    (hrtxCmdCreateMap true
      ⟨VkIndexType.uint16, 12, VkFormat.r32g32Sfloat, 8, 3⟩).allocations = [] :=
  hrtxCmdCreateMap_format_rejection
    ⟨VkIndexType.uint16, 12, VkFormat.r32g32Sfloat, 8, 3⟩ (Or.inl (by decide))

/-- Claim C8: with a non-null pipeline and supported formats, a request with
primitiveCount = 0 returns VK_INCOMPLETE, a code distinct from VK_SUCCESS
and from the other codes the entry point returns, with no buffer allocated,
no command recorded and no map object created. -/
theorem hrtxCmdCreateMap_zero_primitive_rejection (create : HrtxMapCreate)
    (hidx : create.indexType = VkIndexType.uint32)
    (hfmt : create.textureCoordsFormat = VkFormat.r32g32Sfloat)
    (hstride : create.textureCoordsStride % 8 = 0)
    (hpc : create.primitiveCount = 0) :
    (hrtxCmdCreateMap true create).result = VkResult.incomplete ∧
    VkResult.incomplete ≠ VkResult.success ∧
    VkResult.incomplete ≠ VkResult.errorFormatNotSupported ∧
    VkResult.incomplete ≠ VkResult.errorInitializationFailed ∧
    (hrtxCmdCreateMap true create).hrtxMap = none ∧
    (hrtxCmdCreateMap true create).cmds = [] ∧
    (hrtxCmdCreateMap true create).allocations = [] := by
  unfold hrtxCmdCreateMap
  rw [if_neg (by simp), if_neg (by simp [hidx, hfmt, hstride]), if_pos hpc]
  exact ⟨rfl, by decide, by decide, by decide, rfl, rfl, rfl⟩

/-- Witness for claim C8 at a zero-primitive request. -/
theorem hrtxCmdCreateMap_zero_primitive_rejection_witness :
    (hrtxCmdCreateMap true
      ⟨VkIndexType.uint32, 0, VkFormat.r32g32Sfloat, 16, 4⟩).result =
        VkResult.incomplete ∧
    VkResult.incomplete ≠ VkResult.success ∧
    VkResult.incomplete ≠ VkResult.errorFormatNotSupported ∧
    VkResult.incomplete ≠ VkResult.errorInitializationFailed ∧
    (hrtxCmdCreateMap true
      ⟨VkIndexType.uint32, 0, VkFormat.r32g32Sfloat, 16, 4⟩).hrtxMap = none ∧
    (hrtxCmdCreateMap true
      ⟨VkIndexType.uint32, 0, VkFormat.r32g32Sfloat, 16, 4⟩).cmds = [] ∧
    (hrtxCmdCreateMap true
      ⟨VkIndexType.uint32, 0, VkFormat.r32g32Sfloat, 16, 4⟩).allocations = [] :=
  hrtxCmdCreateMap_zero_primitive_rejection
    ⟨VkIndexType.uint32, 0, VkFormat.r32g32Sfloat, 16, 4⟩ rfl rfl rfl rfl

/-- Claim C9: a null pipeline handle returns VK_ERROR_INITIALIZATION_FAILED
for every request, including requests that would fail the later format or
primitive-count validation, with no allocation, no recording and the output
map handle left unwritten. -/
theorem hrtxCmdCreateMap_null_pipeline (create : HrtxMapCreate) :
    hrtxCmdCreateMap false create =
      ⟨VkResult.errorInitializationFailed, none, [], []⟩ := by
  unfold hrtxCmdCreateMap
  rw [if_pos rfl]

/-! ## Claim C10: hrtxCreatePipeline (src/heightmap_rtx.cpp,
src/context.hpp) -/

/-- Embeds HrtxContext::checkResult (src/context.hpp): when a
checkResultCallback was supplied the driver result is passed to it,
otherwise it is dropped. The returned list holds the results delivered to
the callback. -/
def checkResult (hasCallback : Bool) (result : VkResult) : List VkResult :=
  if hasCallback then [result] else []

/-- Embeds hrtxCreatePipeline (src/heightmap_rtx.cpp): both branches
construct an HrtxPipeline_T, whose internal vkCreate... driver results are
each routed through HrtxContext::checkResult, and return VK_SUCCESS
unconditionally. driverResults lists the VkResult values the driver
produces for the internal create calls (shader module, descriptor set
layouts, descriptor pool, descriptor set, pipeline layout, compute
pipeline); the second component lists the results delivered to the
callback. -/
def hrtxCreatePipeline (hasCallback : Bool) (driverResults : List VkResult) :
    VkResult × List VkResult :=
  (VkResult.success, driverResults.flatMap (checkResult hasCallback))

/-- Claim C10: hrtxCreatePipeline returns VK_SUCCESS for every input;
driver-reported failures are surfaced only through the optional callback,
which receives exactly the driver results when present, and the results are
silently discarded when it is absent. -/
theorem hrtxCreatePipeline_always_success (hasCallback : Bool)
    (driverResults : List VkResult) :
    (hrtxCreatePipeline hasCallback driverResults).1 = VkResult.success ∧
    (hrtxCreatePipeline true driverResults).2 = driverResults ∧
    (hrtxCreatePipeline false driverResults).2 = [] := by
  refine ⟨rfl, ?_, ?_⟩
  · unfold hrtxCreatePipeline checkResult
    simp
  · unfold hrtxCreatePipeline checkResult
    simp
